import Mathlib

/-!
libmodbus: the protocol constants of `src/modbus.h`.

A shallow embedding of the header `src/modbus.h`: every `#define` and every
enumerator the properties below talk about becomes a Lean constant of the same
name, with the same defining expression as in the header (a macro that is a
sum of two other macros is the sum of the two Lean constants, an enumerator
without an initialiser is its predecessor plus one).

All constants are non-negative C `int` values, so they are natural numbers
here; that they fit a signed 32-bit `int` is part of what is proved.

The frame builders of the library (`modbus.c`) are not part of the header.
Where a property needs the shape of a frame, the shape is modelled from the
specification and the definition says so.
-/

namespace Modbus

/-! ## Frame geometry (modbus.h, lines 42-89) -/

def MODBUS_TCP_DEFAULT_PORT : Nat := 502
def MODBUS_BROADCAST_ADDRESS : Nat := 255

def HEADER_LENGTH_RTU : Nat := 1
def PRESET_QUERY_LENGTH_RTU : Nat := 6
def PRESET_RESPONSE_LENGTH_RTU : Nat := 2

def HEADER_LENGTH_TCP : Nat := 7
def PRESET_QUERY_LENGTH_TCP : Nat := 12
def PRESET_RESPONSE_LENGTH_TCP : Nat := 8

def CHECKSUM_LENGTH_RTU : Nat := 2
def CHECKSUM_LENGTH_TCP : Nat := 0

def MIN_QUERY_LENGTH : Nat := 12

def MAX_PDU_LENGTH : Nat := 253
def MAX_ADU_LENGTH_RTU : Nat := 256
def MAX_ADU_LENGTH_TCP : Nat := 260

def MAX_MESSAGE_LENGTH : Nat := 260

def EXCEPTION_RESPONSE_LENGTH_RTU : Nat := 5

def MAX_STATUS : Nat := 2000
def MAX_REGISTERS : Nat := 125

def REPORT_SLAVE_ID_LENGTH : Nat := 75

/-! ## Function codes (modbus.h, lines 111-121) -/

def FC_READ_COIL_STATUS : Nat := 0x01
def FC_READ_INPUT_STATUS : Nat := 0x02
def FC_READ_HOLDING_REGISTERS : Nat := 0x03
def FC_READ_INPUT_REGISTERS : Nat := 0x04
def FC_FORCE_SINGLE_COIL : Nat := 0x05
def FC_PRESET_SINGLE_REGISTER : Nat := 0x06
def FC_READ_EXCEPTION_STATUS : Nat := 0x07
def FC_FORCE_MULTIPLE_COILS : Nat := 0x0F
def FC_PRESET_MULTIPLE_REGISTERS : Nat := 0x10
def FC_REPORT_SLAVE_ID : Nat := 0x11

/-- The function codes the header defines, in the order of their `#define`s. -/
def functionCodes : List Nat :=
  [FC_READ_COIL_STATUS, FC_READ_INPUT_STATUS, FC_READ_HOLDING_REGISTERS,
   FC_READ_INPUT_REGISTERS, FC_FORCE_SINGLE_COIL, FC_PRESET_SINGLE_REGISTER,
   FC_READ_EXCEPTION_STATUS, FC_FORCE_MULTIPLE_COILS,
   FC_PRESET_MULTIPLE_REGISTERS, FC_REPORT_SLAVE_ID]

/-! ## Error numbers (modbus.h, lines 123-158) -/

def MODBUS_ENOBASE : Nat := 112345678

/-! The anonymous `enum` of protocol exceptions: the first enumerator is given
the value `0x01`, each following one is its predecessor plus one. -/

def MODBUS_EXCEPTION_ILLEGAL_FUNCTION : Nat := 0x01
def MODBUS_EXCEPTION_ILLEGAL_DATA_ADDRESS : Nat := MODBUS_EXCEPTION_ILLEGAL_FUNCTION + 1
def MODBUS_EXCEPTION_ILLEGAL_DATA_VALUE : Nat := MODBUS_EXCEPTION_ILLEGAL_DATA_ADDRESS + 1
def MODBUS_EXCEPTION_SLAVE_OR_SERVER_FAILURE : Nat := MODBUS_EXCEPTION_ILLEGAL_DATA_VALUE + 1
def MODBUS_EXCEPTION_ACKNOWLEDGE : Nat := MODBUS_EXCEPTION_SLAVE_OR_SERVER_FAILURE + 1
def MODBUS_EXCEPTION_SLAVE_OR_SERVER_BUSY : Nat := MODBUS_EXCEPTION_ACKNOWLEDGE + 1
def MODBUS_EXCEPTION_NEGATIVE_ACKNOWLEDGE : Nat := MODBUS_EXCEPTION_SLAVE_OR_SERVER_BUSY + 1
def MODBUS_EXCEPTION_MEMORY_PARITY : Nat := MODBUS_EXCEPTION_NEGATIVE_ACKNOWLEDGE + 1
def MODBUS_EXCEPTION_NOT_DEFINED : Nat := MODBUS_EXCEPTION_MEMORY_PARITY + 1
def MODBUS_EXCEPTION_GATEWAY_PATH : Nat := MODBUS_EXCEPTION_NOT_DEFINED + 1
def MODBUS_EXCEPTION_GATEWAY_TARGET : Nat := MODBUS_EXCEPTION_GATEWAY_PATH + 1
def MODBUS_EXCEPTION_MAX : Nat := MODBUS_EXCEPTION_GATEWAY_TARGET + 1

/-- The enumerators of the exception `enum` below `MODBUS_EXCEPTION_MAX`, in
declaration order. -/
def exceptionEnumerators : List Nat :=
  [ MODBUS_EXCEPTION_ILLEGAL_FUNCTION, MODBUS_EXCEPTION_ILLEGAL_DATA_ADDRESS,
   MODBUS_EXCEPTION_ILLEGAL_DATA_VALUE, MODBUS_EXCEPTION_SLAVE_OR_SERVER_FAILURE,
   MODBUS_EXCEPTION_ACKNOWLEDGE, MODBUS_EXCEPTION_SLAVE_OR_SERVER_BUSY,
   MODBUS_EXCEPTION_NEGATIVE_ACKNOWLEDGE, MODBUS_EXCEPTION_MEMORY_PARITY,
   MODBUS_EXCEPTION_NOT_DEFINED, MODBUS_EXCEPTION_GATEWAY_PATH,
   MODBUS_EXCEPTION_GATEWAY_TARGET]

def EMBXILFUN : Nat := MODBUS_ENOBASE + MODBUS_EXCEPTION_ILLEGAL_FUNCTION
def EMBXILADD : Nat := MODBUS_ENOBASE + MODBUS_EXCEPTION_ILLEGAL_DATA_ADDRESS
def EMBXILVAL : Nat := MODBUS_ENOBASE + MODBUS_EXCEPTION_ILLEGAL_DATA_VALUE
def EMBXSFAIL : Nat := MODBUS_ENOBASE + MODBUS_EXCEPTION_SLAVE_OR_SERVER_FAILURE
def EMBXACK : Nat := MODBUS_ENOBASE + MODBUS_EXCEPTION_ACKNOWLEDGE
def EMBXSBUSY : Nat := MODBUS_ENOBASE + MODBUS_EXCEPTION_SLAVE_OR_SERVER_BUSY
def EMBXNACK : Nat := MODBUS_ENOBASE + MODBUS_EXCEPTION_NEGATIVE_ACKNOWLEDGE
def EMBXMEMPAR : Nat := MODBUS_ENOBASE + MODBUS_EXCEPTION_MEMORY_PARITY
def EMBXGPATH : Nat := MODBUS_ENOBASE + MODBUS_EXCEPTION_GATEWAY_PATH
def EMBXGTAR : Nat := MODBUS_ENOBASE + MODBUS_EXCEPTION_GATEWAY_TARGET

def EMBBADCRC : Nat := EMBXGTAR + 1
def EMBBADDATA : Nat := EMBXGTAR + 2
def EMBBADEXC : Nat := EMBXGTAR + 3
def EMBUNKEXC : Nat := EMBXGTAR + 4
def EMBMDATA : Nat := EMBXGTAR + 5

/-- The protocol-exception error values the header defines (the `EMBX*`
macros), in the order of their `#define`s. -/
def protocolExceptionErrors : List Nat :=
  [EMBXILFUN, EMBXILADD, EMBXILVAL, EMBXSFAIL, EMBXACK, EMBXSBUSY, EMBXNACK,
   EMBXMEMPAR, EMBXGPATH, EMBXGTAR]

/-- The native libmodbus error values the header defines, in the order of
their `#define`s. -/
def localErrors : List Nat :=
  [EMBBADCRC, EMBBADDATA, EMBBADEXC, EMBUNKEXC, EMBMDATA]

/-! ## Frame shapes

The header fixes the constants only; the frames themselves are built in
`modbus.c`. The shapes below follow the specification (section 4.2, the
response-length table and the TCP frame layout). -/

/-- Modelled from the spec: `ceil(nb / 8)` of the response-length table, the
number of bytes that hold `nb` bits. -/
def ceilDiv8 (nb : Nat) : Nat := (nb + 7) / 8

/-- Modelled from the spec: the request builder of `modbus.c` is not part of
the header. Length of the PDU of a write-multiple-registers (0x10) request for
`nb` registers: function (1) + address (2) + quantity (2) + byte count (1) +
two bytes for each register. -/
def presetMultipleRegistersPduLength (nb : Nat) : Nat := 1 + 2 + 2 + 1 + 2 * nb

/-- Modelled from the spec: the request builder of `modbus.c` is not part of
the header. Length of the PDU of a write-multiple-coils (0x0F) request for `nb`
coils: function (1) + address (2) + quantity (2) + byte count (1) +
`ceil(nb / 8)` bytes of packed bits. -/
def forceMultipleCoilsPduLength (nb : Nat) : Nat := 1 + 2 + 2 + 1 + ceilDiv8 nb

/-- Modelled from the spec: the response-length computation of `modbus.c` is
not part of the header. Payload length of the normal response to function `fc`
for quantity `nb`, row by row as in the table of section 4.2; `data` is the
number of data bytes of a report-slave-id response. A function code outside
the table has no entry. -/
def normalResponsePayload (fc nb data : Nat) : Option Nat :=
  if fc = FC_READ_COIL_STATUS ∨ fc = FC_READ_INPUT_STATUS then
    some (1 + ceilDiv8 nb)
  else if fc = FC_READ_HOLDING_REGISTERS ∨ fc = FC_READ_INPUT_REGISTERS then
    some (1 + 2 * nb)
  else if fc = FC_FORCE_SINGLE_COIL ∨ fc = FC_PRESET_SINGLE_REGISTER then
    some (2 + 2)
  else if fc = FC_READ_EXCEPTION_STATUS then
    some 1
  else if fc = FC_FORCE_MULTIPLE_COILS ∨ fc = FC_PRESET_MULTIPLE_REGISTERS then
    some (2 + 2)
  else if fc = FC_REPORT_SLAVE_ID then
    some (1 + data)
  else
    none

/-- Modelled from the spec: the frame builder of `modbus.c` is not part of the
header. TCP frame around a PDU (function byte followed by its payload):
`[tx_id_hi][tx_id_lo][0x00][0x00][len_hi][len_lo][unit][function][payload…]`,
where `len` counts the bytes from `unit` onward. -/
def tcpFrame (tx unit : Nat) (pdu : List Nat) : List Nat :=
  let len := 1 + pdu.length
  [tx / 256 % 256, tx % 256, 0x00, 0x00, len / 256 % 256, len % 256, unit] ++ pdu

/-- Modelled from the spec: the MBAP header of section 6, `length` 2 bytes in
network order behind `tx_id` (2) and `proto_id` (2); the reply parser of
`modbus.c` is not part of the header. The 16-bit length field of a TCP frame
(bytes 4 and 5, high byte first). -/
def mbapLengthField (frame : List Nat) : Nat :=
  256 * frame.getD 4 0 + frame.getD 5 0

/-- Modelled from the spec: the request builder of `modbus.c` is not part of
the header. PDU of a request that carries an address and a quantity, as in
scenario 1 of section 8 (`fc=0x03, start=0x0000, nb=2` gives `03 00 00 00 02`)
and in the header's comment on `MIN_QUERY_LENGTH`: function (1) + address (2) +
number (2), both 16-bit fields high byte first. -/
def presetQueryPdu (fc addr nb : Nat) : List Nat :=
  [fc, addr / 256 % 256, addr % 256, nb / 256 % 256, nb % 256]

/-- Modelled from the spec: the frame builder of `modbus.c` is not part of the
header. RTU frame around a PDU: `[slave][function][payload…][crc_lo][crc_hi]`;
the two CRC bytes are passed in, their value plays no part in the lengths. -/
def rtuFrame (slave : Nat) (pdu : List Nat) (crc_lo crc_hi : Nat) : List Nat :=
  [slave] ++ pdu ++ [crc_lo, crc_hi]

/-- Modelled from the spec: `build_exception` of section 4.2. PDU of an
exception response: the function byte with its high bit set, then the 1-byte
exception code. -/
def exceptionPdu (fc code : Nat) : List Nat := [fc ||| 0x80, code]

/-! ## Properties of the frame geometry -/

theorem ceilDiv8_spec (nb : Nat) : nb ≤ 8 * ceilDiv8 nb ∧ 8 * ceilDiv8 nb < nb + 8 := by
  unfold ceilDiv8
  omega

/-- C6: the maximum ADU length of each transport is the PDU cap plus that
transport's framing (256 for RTU, 260 for TCP), and the deprecated
`MAX_MESSAGE_LENGTH` is at least as large as both. -/
theorem max_adu_length_is_pdu_plus_framing :
    MAX_ADU_LENGTH_RTU = MAX_PDU_LENGTH + HEADER_LENGTH_RTU + CHECKSUM_LENGTH_RTU ∧
    MAX_ADU_LENGTH_RTU = 256 ∧
    MAX_ADU_LENGTH_TCP = MAX_PDU_LENGTH + HEADER_LENGTH_TCP + CHECKSUM_LENGTH_TCP ∧
    MAX_ADU_LENGTH_TCP = 260 ∧
    MAX_ADU_LENGTH_RTU ≤ MAX_MESSAGE_LENGTH ∧
    MAX_ADU_LENGTH_TCP ≤ MAX_MESSAGE_LENGTH := by
  decide

/-- C7: the function codes the header defines are exactly the set
{0x01,0x02,0x03,0x04,0x05,0x06,0x07,0x0F,0x10,0x11}: ten pairwise distinct
codes, none outside the set, none of the set missing. -/
theorem function_codes_exactly_the_supported_set :
    functionCodes.length = 10 ∧
    functionCodes.Nodup ∧
    ∀ fc : Nat, fc ∈ functionCodes ↔
      fc ∈ ({0x01, 0x02, 0x03, 0x04, 0x05, 0x06, 0x07, 0x0F, 0x10, 0x11} : Finset Nat) := by
  refine ⟨by decide, by decide, ?_⟩
  intro fc
  simp [functionCodes, FC_READ_COIL_STATUS, FC_READ_INPUT_STATUS,
    FC_READ_HOLDING_REGISTERS, FC_READ_INPUT_REGISTERS, FC_FORCE_SINGLE_COIL,
    FC_PRESET_SINGLE_REGISTER, FC_READ_EXCEPTION_STATUS, FC_FORCE_MULTIPLE_COILS,
    FC_PRESET_MULTIPLE_REGISTERS, FC_REPORT_SLAVE_ID]

/-- C8: the preset frame lengths follow the frame layout. The preset query
length is header + function (1) + address (2) + quantity (2) on both
transports, 12 on TCP, which is the length of the TCP read-holding-registers
request of the specification, whose MBAP length field 6 counts the bytes from
the unit onward; the preset response length is header + function; and
`MIN_QUERY_LENGTH` is the maximum over the two transports of preset query
length + checksum length, where the TCP operand is 7 + 1 + 2 + 2 and the RTU
operand is 1 + 1 + 2 + 2 + 2, so 12. -/
theorem preset_lengths_follow_frame_layout :
    (∀ tx unit fc addr nb : Nat,
      (tcpFrame tx unit (presetQueryPdu fc addr nb)).length =
          PRESET_QUERY_LENGTH_TCP + CHECKSUM_LENGTH_TCP ∧
        (tcpFrame tx unit (presetQueryPdu fc addr nb)).length = PRESET_QUERY_LENGTH_TCP ∧
        mbapLengthField (tcpFrame tx unit (presetQueryPdu fc addr nb)) = 6) ∧
    (∀ slave fc addr nb crc_lo crc_hi : Nat,
      (rtuFrame slave (presetQueryPdu fc addr nb) crc_lo crc_hi).length =
        PRESET_QUERY_LENGTH_RTU + CHECKSUM_LENGTH_RTU) ∧
    HEADER_LENGTH_RTU = 1 ∧
    HEADER_LENGTH_TCP = 7 ∧
    CHECKSUM_LENGTH_RTU = 2 ∧
    CHECKSUM_LENGTH_TCP = 0 ∧
    PRESET_QUERY_LENGTH_TCP + CHECKSUM_LENGTH_TCP = 7 + 1 + 2 + 2 ∧
    PRESET_QUERY_LENGTH_RTU + CHECKSUM_LENGTH_RTU = 1 + 1 + 2 + 2 + 2 ∧
    PRESET_QUERY_LENGTH_TCP + CHECKSUM_LENGTH_TCP =
      HEADER_LENGTH_TCP + 1 + 2 + 2 + CHECKSUM_LENGTH_TCP ∧
    PRESET_QUERY_LENGTH_RTU + CHECKSUM_LENGTH_RTU =
      HEADER_LENGTH_RTU + 1 + 2 + 2 + CHECKSUM_LENGTH_RTU ∧
    presetQueryPdu FC_READ_HOLDING_REGISTERS 0x0000 2 =
      [FC_READ_HOLDING_REGISTERS, 0x00, 0x00, 0x00, 0x02] ∧
    PRESET_QUERY_LENGTH_RTU = HEADER_LENGTH_RTU + 1 + 2 + 2 ∧
    PRESET_QUERY_LENGTH_TCP = HEADER_LENGTH_TCP + 1 + 2 + 2 ∧
    PRESET_QUERY_LENGTH_TCP = 12 ∧
    tcpFrame 0x0001 1 [FC_READ_HOLDING_REGISTERS, 0x00, 0x00, 0x00, 0x02] =
      [0x00, 0x01, 0x00, 0x00, 0x00, 0x06, 0x01, 0x03, 0x00, 0x00, 0x00, 0x02] ∧
    (tcpFrame 0x0001 1 [FC_READ_HOLDING_REGISTERS, 0x00, 0x00, 0x00, 0x02]).length =
      PRESET_QUERY_LENGTH_TCP ∧
    mbapLengthField (tcpFrame 0x0001 1 [FC_READ_HOLDING_REGISTERS, 0x00, 0x00, 0x00, 0x02]) = 6 ∧
    mbapLengthField (tcpFrame 0x0001 1 [FC_READ_HOLDING_REGISTERS, 0x00, 0x00, 0x00, 0x02]) =
      PRESET_QUERY_LENGTH_TCP - (HEADER_LENGTH_TCP - 1) ∧
    PRESET_RESPONSE_LENGTH_RTU = HEADER_LENGTH_RTU + 1 ∧
    PRESET_RESPONSE_LENGTH_TCP = HEADER_LENGTH_TCP + 1 ∧
    MIN_QUERY_LENGTH =
      max (PRESET_QUERY_LENGTH_TCP + CHECKSUM_LENGTH_TCP)
        (PRESET_QUERY_LENGTH_RTU + CHECKSUM_LENGTH_RTU) ∧
    MIN_QUERY_LENGTH = max (7 + 1 + 2 + 2) (1 + 1 + 2 + 2 + 2) ∧
    MIN_QUERY_LENGTH = 12 := by
  refine ⟨?_, ?_, by decide⟩
  · intro tx unit fc addr nb
    refine ⟨?_, ?_, ?_⟩ <;>
      simp [tcpFrame, presetQueryPdu, mbapLengthField, PRESET_QUERY_LENGTH_TCP,
        CHECKSUM_LENGTH_TCP]
  · intro slave fc addr nb crc_lo crc_hi
    simp [rtuFrame, presetQueryPdu, PRESET_QUERY_LENGTH_RTU, CHECKSUM_LENGTH_RTU]

/-- C1 (refuted as stated): the header's quantity limits do not keep a
multi-write request inside the PDU cap. 124 registers are within
`MAX_REGISTERS` and 1977 coils within `MAX_STATUS`, yet the request PDUs are
254 bytes long, above `MAX_PDU_LENGTH`. -/
theorem multi_write_at_header_limits_exceeds_pdu_cap :
    (1 ≤ 124 ∧ 124 ≤ MAX_REGISTERS ∧
      presetMultipleRegistersPduLength 124 = 254 ∧
      ¬ presetMultipleRegistersPduLength 124 ≤ MAX_PDU_LENGTH) ∧
    (1 ≤ 1977 ∧ 1977 ≤ MAX_STATUS ∧
      forceMultipleCoilsPduLength 1977 = 254 ∧
      ¬ forceMultipleCoilsPduLength 1977 ≤ MAX_PDU_LENGTH) := by
  decide

/-- C1 (amended): a write-multiple-registers request PDU, of length
6 + 2*nb, is at most `MAX_PDU_LENGTH` exactly when nb ≤ 123, and a
write-multiple-coils request PDU, of length 6 + ceil(nb/8), exactly when
nb ≤ 1976; the header's `MAX_REGISTERS` and `MAX_STATUS` lie above these
bounds. -/
theorem multi_write_pdu_within_cap_iff (nb : Nat) :
    (presetMultipleRegistersPduLength nb ≤ MAX_PDU_LENGTH ↔ nb ≤ 123) ∧
    (forceMultipleCoilsPduLength nb ≤ MAX_PDU_LENGTH ↔ nb ≤ 1976) ∧
    123 < MAX_REGISTERS ∧ 1976 < MAX_STATUS := by
  refine ⟨?_, ?_, by decide, by decide⟩
  · unfold presetMultipleRegistersPduLength MAX_PDU_LENGTH
    omega
  · unfold forceMultipleCoilsPduLength ceilDiv8 MAX_PDU_LENGTH
    omega

/-- C2: for every read function and every nb in its allowed range the normal
response has a payload entry, and header + 1 + payload + trailer fits the
frame buffer of the transport (256 for RTU, 260 for TCP) while the PDU part
1 + payload stays within `MAX_PDU_LENGTH`. -/
theorem read_response_fits_frame_buffer (fc nb data : Nat)
    (h : ((fc = FC_READ_COIL_STATUS ∨ fc = FC_READ_INPUT_STATUS) ∧
            1 ≤ nb ∧ nb ≤ MAX_STATUS) ∨
         ((fc = FC_READ_HOLDING_REGISTERS ∨ fc = FC_READ_INPUT_REGISTERS) ∧
            1 ≤ nb ∧ nb ≤ MAX_REGISTERS)) :
    ∃ payload : Nat,
      normalResponsePayload fc nb data = some payload ∧
      (fc = FC_READ_COIL_STATUS ∨ fc = FC_READ_INPUT_STATUS → payload = 1 + ceilDiv8 nb) ∧
      (fc = FC_READ_HOLDING_REGISTERS ∨ fc = FC_READ_INPUT_REGISTERS → payload = 1 + 2 * nb) ∧
      HEADER_LENGTH_RTU + 1 + payload + CHECKSUM_LENGTH_RTU ≤ MAX_ADU_LENGTH_RTU ∧
      HEADER_LENGTH_TCP + 1 + payload + CHECKSUM_LENGTH_TCP ≤ MAX_ADU_LENGTH_TCP ∧
      1 + payload ≤ MAX_PDU_LENGTH := by
  simp only [FC_READ_COIL_STATUS, FC_READ_INPUT_STATUS, FC_READ_HOLDING_REGISTERS,
    FC_READ_INPUT_REGISTERS, MAX_STATUS, MAX_REGISTERS] at h
  rcases h with ⟨hfc | hfc, h1, h2⟩ | ⟨hfc | hfc, h1, h2⟩ <;> subst hfc <;>
    simp [normalResponsePayload, ceilDiv8, FC_READ_COIL_STATUS, FC_READ_INPUT_STATUS,
      FC_READ_HOLDING_REGISTERS, FC_READ_INPUT_REGISTERS, HEADER_LENGTH_RTU,
      HEADER_LENGTH_TCP, CHECKSUM_LENGTH_RTU, CHECKSUM_LENGTH_TCP, MAX_ADU_LENGTH_RTU,
      MAX_ADU_LENGTH_TCP, MAX_PDU_LENGTH] <;>
    omega

theorem read_response_fits_frame_buffer_witness :
    (((FC_READ_INPUT_STATUS = FC_READ_COIL_STATUS ∨
          FC_READ_INPUT_STATUS = FC_READ_INPUT_STATUS) ∧
        1 ≤ 2000 ∧ 2000 ≤ MAX_STATUS) ∨
      ((FC_READ_INPUT_STATUS = FC_READ_HOLDING_REGISTERS ∨
          FC_READ_INPUT_STATUS = FC_READ_INPUT_REGISTERS) ∧
        1 ≤ 2000 ∧ 2000 ≤ MAX_REGISTERS)) ∧
    ∃ payload : Nat,
      normalResponsePayload FC_READ_INPUT_STATUS 2000 0 = some payload ∧
      (FC_READ_INPUT_STATUS = FC_READ_COIL_STATUS ∨
          FC_READ_INPUT_STATUS = FC_READ_INPUT_STATUS → payload = 1 + ceilDiv8 2000) ∧
      (FC_READ_INPUT_STATUS = FC_READ_HOLDING_REGISTERS ∨
          FC_READ_INPUT_STATUS = FC_READ_INPUT_REGISTERS → payload = 1 + 2 * 2000) ∧
      HEADER_LENGTH_RTU + 1 + payload + CHECKSUM_LENGTH_RTU ≤ MAX_ADU_LENGTH_RTU ∧
      HEADER_LENGTH_TCP + 1 + payload + CHECKSUM_LENGTH_TCP ≤ MAX_ADU_LENGTH_TCP ∧
      1 + payload ≤ MAX_PDU_LENGTH :=
  ⟨by decide, read_response_fits_frame_buffer FC_READ_INPUT_STATUS 2000 0 (by decide)⟩

/-! ## Properties of the error numbers -/

/-- C3 (refuted as stated): exception code 0x09 lies in [0x01, 0x0B], it is
the enumerator `MODBUS_EXCEPTION_NOT_DEFINED`, and the header defines no
protocol-exception error value equal to `MODBUS_ENOBASE + 0x09`, nor any
native error value equal to it. -/
theorem exception_code_not_defined_has_no_error_value :
    0x01 ≤ 0x09 ∧ 0x09 ≤ 0x0B ∧
    MODBUS_EXCEPTION_NOT_DEFINED = 0x09 ∧
    MODBUS_ENOBASE + 0x09 ∉ protocolExceptionErrors ∧
    MODBUS_ENOBASE + 0x09 ∉ localErrors := by
  decide

/-- C3 (amended): every protocol exception code in [0x01, 0x0B] other than
0x09 (`MODBUS_EXCEPTION_NOT_DEFINED`) is mapped 1:1 to a typed error. The
header defines a protocol-exception error value equal to `MODBUS_ENOBASE + c`
exactly for the codes c in [0x01, 0x0B] other than 0x09, two different codes
never get the same error value, and the ten values are pairwise distinct. -/
theorem protocol_exception_codes_one_to_one (c : Nat) :
    (MODBUS_ENOBASE + c ∈ protocolExceptionErrors ↔
      (0x01 ≤ c ∧ c ≤ 0x0B ∧ c ≠ MODBUS_EXCEPTION_NOT_DEFINED)) ∧
    (∀ d : Nat, c ≠ d → MODBUS_ENOBASE + c ≠ MODBUS_ENOBASE + d) ∧
    protocolExceptionErrors.Nodup := by
  refine ⟨?_, ?_, by decide⟩
  · simp only [protocolExceptionErrors, EMBXILFUN, EMBXILADD, EMBXILVAL, EMBXSFAIL,
      EMBXACK, EMBXSBUSY, EMBXNACK, EMBXMEMPAR, EMBXGPATH, EMBXGTAR,
      MODBUS_EXCEPTION_GATEWAY_TARGET, MODBUS_EXCEPTION_GATEWAY_PATH,
      MODBUS_EXCEPTION_NOT_DEFINED, MODBUS_EXCEPTION_MEMORY_PARITY,
      MODBUS_EXCEPTION_NEGATIVE_ACKNOWLEDGE, MODBUS_EXCEPTION_SLAVE_OR_SERVER_BUSY,
      MODBUS_EXCEPTION_ACKNOWLEDGE, MODBUS_EXCEPTION_SLAVE_OR_SERVER_FAILURE,
      MODBUS_EXCEPTION_ILLEGAL_DATA_VALUE, MODBUS_EXCEPTION_ILLEGAL_DATA_ADDRESS,
      MODBUS_EXCEPTION_ILLEGAL_FUNCTION, List.mem_cons, List.mem_singleton,
      List.not_mem_nil, or_false]
    omega
  · intro d hcd
    omega

/-- C4: the ten protocol-exception values and the five native values are
fifteen pairwise distinct integers in two disjoint groups, every native value
is strictly greater than every protocol-exception value, and all of them lie
strictly above `MODBUS_ENOBASE` and fit a signed 32-bit int. -/
theorem typed_errors_partitioned :
    protocolExceptionErrors.length = 10 ∧
    localErrors.length = 5 ∧
    (protocolExceptionErrors ++ localErrors).Nodup ∧
    (∀ e ∈ protocolExceptionErrors, e ∉ localErrors) ∧
    (∀ l ∈ localErrors, ∀ p ∈ protocolExceptionErrors, p < l) ∧
    (∀ e ∈ protocolExceptionErrors ++ localErrors, MODBUS_ENOBASE < e ∧ e < 2 ^ 31) := by
  decide

/-- C5: the exception enumerators carry the Modbus wire codes (0x01, 0x02,
0x03, ..., 0x0A, 0x0B), they take consecutive values, `MODBUS_EXCEPTION_MAX` =
0x0C is their exclusive upper bound, and exception bytes 0x02 and 0x03
correspond to `EMBXILADD` = `MODBUS_ENOBASE` + 2 and `EMBXILVAL` =
`MODBUS_ENOBASE` + 3. -/
theorem exception_enumerators_carry_wire_codes :
    MODBUS_EXCEPTION_ILLEGAL_FUNCTION = 0x01 ∧
    MODBUS_EXCEPTION_ILLEGAL_DATA_ADDRESS = 0x02 ∧
    MODBUS_EXCEPTION_ILLEGAL_DATA_VALUE = 0x03 ∧
    MODBUS_EXCEPTION_GATEWAY_PATH = 0x0A ∧
    MODBUS_EXCEPTION_GATEWAY_TARGET = 0x0B ∧
    exceptionEnumerators = List.range' 0x01 11 ∧
    List.Chain' (fun a b => b = a + 1) (exceptionEnumerators ++ [ MODBUS_EXCEPTION_MAX]) ∧
    MODBUS_EXCEPTION_MAX = 0x0C ∧
    (∀ e ∈ exceptionEnumerators, e < MODBUS_EXCEPTION_MAX) ∧
    EMBXILADD = MODBUS_ENOBASE + 0x02 ∧
    EMBXILVAL = MODBUS_ENOBASE + 0x03 := by
  refine ⟨by decide, by decide, by decide, by decide, by decide, by decide, ?_,
    by decide, by decide, by decide, by decide⟩
  simp only [exceptionEnumerators, List.cons_append, List.nil_append, List.chain'_cons,
    List.chain'_singleton, and_true]
  decide

/-! ## Exception responses -/

/-- C9: the RTU exception response length is slave byte + function byte +
1-byte exception code + 2-byte CRC, 5; its TCP counterpart is 9 bytes long
with MBAP length field 3; and for every function of the response-length table
and every quantity nb ≥ 1 the normal RTU response is at least as long, and
strictly longer for functions 0x01-0x06, 0x0F and 0x10. -/
theorem exception_response_never_longer_than_normal (fc nb data : Nat)
    (hfc : fc ∈ functionCodes) (hnb : 1 ≤ nb) :
    EXCEPTION_RESPONSE_LENGTH_RTU = HEADER_LENGTH_RTU + 1 + 1 + CHECKSUM_LENGTH_RTU ∧
    EXCEPTION_RESPONSE_LENGTH_RTU = PRESET_RESPONSE_LENGTH_RTU + 1 + CHECKSUM_LENGTH_RTU ∧
    EXCEPTION_RESPONSE_LENGTH_RTU = 5 ∧
    PRESET_RESPONSE_LENGTH_TCP + 1 = 9 ∧
    (tcpFrame 0x0001 1 (exceptionPdu FC_READ_HOLDING_REGISTERS
        MODBUS_EXCEPTION_ILLEGAL_DATA_ADDRESS)).length = PRESET_RESPONSE_LENGTH_TCP + 1 ∧
    mbapLengthField (tcpFrame 0x0001 1 (exceptionPdu FC_READ_HOLDING_REGISTERS
        MODBUS_EXCEPTION_ILLEGAL_DATA_ADDRESS)) = 3 ∧
    ∃ payload : Nat,
      normalResponsePayload fc nb data = some payload ∧
      EXCEPTION_RESPONSE_LENGTH_RTU ≤
        HEADER_LENGTH_RTU + 1 + payload + CHECKSUM_LENGTH_RTU ∧
      (fc ∈ [FC_READ_COIL_STATUS, FC_READ_INPUT_STATUS, FC_READ_HOLDING_REGISTERS,
             FC_READ_INPUT_REGISTERS, FC_FORCE_SINGLE_COIL, FC_PRESET_SINGLE_REGISTER,
             FC_FORCE_MULTIPLE_COILS, FC_PRESET_MULTIPLE_REGISTERS] →
        EXCEPTION_RESPONSE_LENGTH_RTU <
          HEADER_LENGTH_RTU + 1 + payload + CHECKSUM_LENGTH_RTU) := by
  refine ⟨by decide, by decide, by decide, by decide, by decide, by decide, ?_⟩
  simp only [functionCodes, FC_READ_COIL_STATUS, FC_READ_INPUT_STATUS,
    FC_READ_HOLDING_REGISTERS, FC_READ_INPUT_REGISTERS, FC_FORCE_SINGLE_COIL,
    FC_PRESET_SINGLE_REGISTER, FC_READ_EXCEPTION_STATUS, FC_FORCE_MULTIPLE_COILS,
    FC_PRESET_MULTIPLE_REGISTERS, FC_REPORT_SLAVE_ID, List.mem_cons, List.mem_singleton,
    List.not_mem_nil, or_false] at hfc
  rcases hfc with h | h | h | h | h | h | h | h | h | h <;> subst h <;>
    simp [normalResponsePayload, ceilDiv8, FC_READ_COIL_STATUS, FC_READ_INPUT_STATUS,
      FC_READ_HOLDING_REGISTERS, FC_READ_INPUT_REGISTERS, FC_FORCE_SINGLE_COIL,
      FC_PRESET_SINGLE_REGISTER, FC_READ_EXCEPTION_STATUS, FC_FORCE_MULTIPLE_COILS,
      FC_PRESET_MULTIPLE_REGISTERS, FC_REPORT_SLAVE_ID, EXCEPTION_RESPONSE_LENGTH_RTU,
      HEADER_LENGTH_RTU, CHECKSUM_LENGTH_RTU] <;>
    omega

theorem exception_response_never_longer_than_normal_witness :
    (FC_READ_EXCEPTION_STATUS ∈ functionCodes ∧ 1 ≤ 1) ∧
    EXCEPTION_RESPONSE_LENGTH_RTU = HEADER_LENGTH_RTU + 1 + 1 + CHECKSUM_LENGTH_RTU ∧
    EXCEPTION_RESPONSE_LENGTH_RTU = PRESET_RESPONSE_LENGTH_RTU + 1 + CHECKSUM_LENGTH_RTU ∧
    EXCEPTION_RESPONSE_LENGTH_RTU = 5 ∧
    PRESET_RESPONSE_LENGTH_TCP + 1 = 9 ∧
    (tcpFrame 0x0001 1 (exceptionPdu FC_READ_HOLDING_REGISTERS
        MODBUS_EXCEPTION_ILLEGAL_DATA_ADDRESS)).length = PRESET_RESPONSE_LENGTH_TCP + 1 ∧
    mbapLengthField (tcpFrame 0x0001 1 (exceptionPdu FC_READ_HOLDING_REGISTERS
        MODBUS_EXCEPTION_ILLEGAL_DATA_ADDRESS)) = 3 ∧
    ∃ payload : Nat,
      normalResponsePayload FC_READ_EXCEPTION_STATUS 1 0 = some payload ∧
      EXCEPTION_RESPONSE_LENGTH_RTU ≤
        HEADER_LENGTH_RTU + 1 + payload + CHECKSUM_LENGTH_RTU ∧
      (FC_READ_EXCEPTION_STATUS ∈
          [FC_READ_COIL_STATUS, FC_READ_INPUT_STATUS, FC_READ_HOLDING_REGISTERS,
           FC_READ_INPUT_REGISTERS, FC_FORCE_SINGLE_COIL, FC_PRESET_SINGLE_REGISTER,
           FC_FORCE_MULTIPLE_COILS, FC_PRESET_MULTIPLE_REGISTERS] →
        EXCEPTION_RESPONSE_LENGTH_RTU <
          HEADER_LENGTH_RTU + 1 + payload + CHECKSUM_LENGTH_RTU) :=
  ⟨by decide,
    exception_response_never_longer_than_normal FC_READ_EXCEPTION_STATUS 1 0
      (by decide) (by decide)⟩

/-- C10: exception replies are unambiguous. Every function code the header
defines is below 0x80, so its exception function byte fc | 0x80 equals
fc + 0x80, fits in one byte, is not a defined function code, gives fc back
when the high bit is cleared, and differs from the exception function byte of
every other defined code. -/
theorem exception_function_byte_unambiguous (fc : Nat) (hfc : fc ∈ functionCodes) :
    fc < 0x80 ∧
    fc ||| 0x80 = fc + 0x80 ∧
    fc ||| 0x80 < 256 ∧
    fc ||| 0x80 ∉ functionCodes ∧
    (fc ||| 0x80) &&& 0x7F = fc ∧
    ∀ other ∈ functionCodes, other ≠ fc → other ||| 0x80 ≠ fc ||| 0x80 := by
  have hall : ∀ x ∈ functionCodes,
      x < 0x80 ∧ x ||| 0x80 = x + 0x80 ∧ x ||| 0x80 < 256 ∧ x ||| 0x80 ∉ functionCodes ∧
      (x ||| 0x80) &&& 0x7F = x ∧
      ∀ other ∈ functionCodes, other ≠ x → other ||| 0x80 ≠ x ||| 0x80 := by
    decide
  exact hall fc hfc

theorem exception_function_byte_unambiguous_witness :
    FC_READ_HOLDING_REGISTERS ∈ functionCodes ∧
    FC_READ_HOLDING_REGISTERS < 0x80 ∧
    FC_READ_HOLDING_REGISTERS ||| 0x80 = FC_READ_HOLDING_REGISTERS + 0x80 ∧
    FC_READ_HOLDING_REGISTERS ||| 0x80 < 256 ∧
    FC_READ_HOLDING_REGISTERS ||| 0x80 ∉ functionCodes ∧
    (FC_READ_HOLDING_REGISTERS ||| 0x80) &&& 0x7F = FC_READ_HOLDING_REGISTERS ∧
    ∀ other ∈ functionCodes, other ≠ FC_READ_HOLDING_REGISTERS →
      other ||| 0x80 ≠ FC_READ_HOLDING_REGISTERS ||| 0x80 :=
  ⟨by decide, exception_function_byte_unambiguous FC_READ_HOLDING_REGISTERS (by decide)⟩

end Modbus
